import Mathlib

/-!
Shallow embedding of the fine-tuning driver `train.py`.

The script is linear orchestration: parse arguments, resolve a configuration,
load a dataset, prepare train/eval splits, load tokenizer and model, run a
pre-training generation probe on the first evaluation example, train, evaluate,
save, optionally publish, reload the fine-tuned model and repeat the probe.
External collaborators (config source, dataset registry, model registry,
trainer) are modelled as failure oracles; the run is modelled as an event
trace together with an `Except` result, so that ordering, publication and
error-propagation properties can be stated.

`utils.py` (imported by `train.py` via `from utils import *`) is not part of
the available sources; the functions it provides (`setup_output_directory`,
`prepare_datasets`) are modelled from the specification, and are marked as
such in their doc comments.
-/

namespace TrainPy

/-- Errors are carried as the collaborator's native message, unchanged. -/
abbrev Err := String

/-- `cfg.model`: the model section of the configuration. -/
structure ModelConfig where
  id : String
deriving DecidableEq

/-- `cfg.dataset`: dataset identifier and the configured column names. -/
structure DatasetConfig where
  id : String
  instruction_column_name : String
  response_column_name : String
deriving DecidableEq

/-- `cfg.training_arguments`: the training-argument section (epoch count). -/
structure TrainingArguments where
  epochs : Nat
deriving DecidableEq

/-- `cfg.hugging_face`: publish flag and optional auth token.  `none` models a
missing/`None` token; `some ""` models a present but empty token string. -/
structure HuggingFaceConfig where
  push_to_hub : Bool
  token : Option String
deriving DecidableEq

/-- The resolved configuration returned by `get_config`. -/
structure Config where
  model : ModelConfig
  dataset : DatasetConfig
  training_arguments : TrainingArguments
  hugging_face : HuggingFaceConfig
deriving DecidableEq

/-- A dataset example: a mapping from field names to text. -/
abbrev Ex := List (String × String)

/-- `ex[k]` as a total lookup: `none` models a Python `KeyError`. -/
def exGet (ex : Ex) (k : String) : Option String :=
  (ex.find? (fun p => p.1 == k)).map Prod.snd

/-- The dataset returned by `load_dataset`: a column schema and the source's
own train/eval split definition (the partition is fixed by the source, not
recomputed). -/
structure HFDataset where
  column_names : List String
  train_split : List Ex
  eval_split : List Ex
deriving DecidableEq

/-- Total number of examples in the source dataset. -/
def HFDataset.size (ds : HFDataset) : Nat :=
  ds.train_split.length + ds.eval_split.length

/-- Modelled from the spec: `prepare_datasets` (provided by the absent
`utils.py`).  "Input: dataset identifier, instruction-column name,
response-column name. Behavior: fetch dataset, validate both named columns
exist, return train/eval sequences. Fails with `DataError` if the dataset is
unreachable or columns are missing."  The train/eval partition is the source
dataset's own split definition. -/
def prepare_datasets (ds : HFDataset) (instr resp : String) :
    Except Err (List Ex × List Ex) :=
  if ds.column_names.contains instr && ds.column_names.contains resp then
    .ok (ds.train_split, ds.eval_split)
  else
    .error "DataError: configured columns not found"

/-- Decimal rendering of a natural number (digit list, most significant
first). -/
def natStr (n : Nat) : String :=
  String.mk (((Nat.digits 10 n).map Nat.digitChar).reverse)

/-- Modelled from the spec: `setup_output_directory` (provided by the absent
`utils.py`).  "Output directory: a filesystem path derived deterministically
from model id, dataset id, and training arguments."  The path is modelled as
its list of components. -/
def setup_output_directory (train_cfg : TrainingArguments)
    (model_cfg : ModelConfig) (dataset_cfg : DatasetConfig) : List String :=
  [model_cfg.id, dataset_cfg.id, "epochs_" ++ natStr train_cfg.epochs]

/-- The publish guard of `train.py` line 61:
`if cfg.hugging_face.push_to_hub and (token := cfg.hugging_face.token):`.
Python truthiness: a missing token and an empty token string are both falsy.
Returns the token passed to `trainer.push_to_hub` when the guard is taken. -/
def pyTokenGuard (hf : HuggingFaceConfig) : Option String :=
  match hf.token with
  | none => none
  | some tok => if hf.push_to_hub && !tok.isEmpty then some tok else none

/-- Observable events of a run, in program order. -/
inductive Event where
  | parse_arguments
  | get_config (name : String)
  | load_dataset (id : String)
  | load_tokenizer (id : String)
  | setup_device
  | load_model (id : String)
  | gen (modelTag : Nat) (tokTag : Nat) (prompt : String)
  | print_example (ex : Ex)
  | print_response (r : String)
  | create_peft_config
  | create_sft_config (dir : List String)
  | trainer_init
  | trainer_train
  | trainer_evaluate
  | trainer_save
  | trainer_push (token : String)
  | reload_model (dir : List String)
deriving DecidableEq

/-- A run's inputs: the command-line model name, the configuration that
`get_config` would resolve, the dataset that `load_dataset` would fetch,
opaque identity tags for the loaded tokenizer, base model and reloaded model,
and one failure oracle per external call (the `Except` value each collaborator
returns). -/
structure World where
  modelName : String
  cfg : Config
  ds : HFDataset
  tokTag : Nat
  baseTag : Nat
  ftTag : Nat
  parseOk : Except Err Unit
  configOk : Except Err Unit
  datasetOk : Except Err Unit
  tokenizerOk : Except Err Unit
  deviceOk : Except Err Unit
  modelOk : Except Err Unit
  gen1 : Except Err String
  trainOk : Except Err Unit
  evalOk : Except Err Unit
  saveOk : Except Err Unit
  pushOk : Except Err Unit
  reloadOk : Except Err Unit
  gen2 : Except Err String

/-- The Python `KeyError` raised by `example1[k]` when the key is absent. -/
def keyErr (k : String) : Err := "KeyError: " ++ k

/-- The Python `IndexError` raised by `eval_dataset[0]` on an empty split. -/
def idxErr : Err := "IndexError: list index out of range"

/-- Shallow embedding of `main` in `train.py`: straight-line execution,
producing the event trace and the run's result.  Each external call's event is
recorded before its oracle is consulted; a failure stops the run with the
collaborator's error unchanged. -/
def mainRun (w : World) : List Event × Except Err Unit :=
  let t1 := [Event.parse_arguments]
  match w.parseOk with
  | .error e => (t1, .error e)
  | .ok _ =>
  let t2 := t1 ++ [Event.get_config w.modelName]
  match w.configOk with
  | .error e => (t2, .error e)
  | .ok _ =>
  let cfg := w.cfg
  let output_dir := setup_output_directory cfg.training_arguments cfg.model cfg.dataset
  let t3 := t2 ++ [Event.load_dataset cfg.dataset.id]
  match w.datasetOk with
  | .error e => (t3, .error e)
  | .ok _ =>
  match prepare_datasets w.ds cfg.dataset.instruction_column_name
      cfg.dataset.response_column_name with
  | .error e => (t3, .error e)
  | .ok (_train_ds, eval_ds) =>
  let t4 := t3 ++ [Event.load_tokenizer cfg.model.id]
  match w.tokenizerOk with
  | .error e => (t4, .error e)
  | .ok _ =>
  let t5 := t4 ++ [Event.setup_device]
  match w.deviceOk with
  | .error e => (t5, .error e)
  | .ok _ =>
  let t6 := t5 ++ [Event.load_model cfg.model.id]
  match w.modelOk with
  | .error e => (t6, .error e)
  | .ok _ =>
  match eval_ds.head? with
  | none => (t6, .error idxErr)
  | some example1 =>
  match exGet example1 "instruction" with
  | none => (t6, .error (keyErr "instruction"))
  | some prompt =>
  let t7 := t6 ++ [Event.gen w.baseTag w.tokTag prompt]
  match w.gen1 with
  | .error e => (t7, .error e)
  | .ok response =>
  let t8 := t7 ++ [Event.print_example example1, Event.print_response response,
    Event.create_peft_config, Event.create_sft_config output_dir,
    Event.trainer_init, Event.trainer_train]
  match w.trainOk with
  | .error e => (t8, .error e)
  | .ok _ =>
  let t9 := t8 ++ [Event.trainer_evaluate]
  match w.evalOk with
  | .error e => (t9, .error e)
  | .ok _ =>
  let t10 := t9 ++ [Event.trainer_save]
  match w.saveOk with
  | .error e => (t10, .error e)
  | .ok _ =>
  let rest : List Event → List Event × Except Err Unit := fun tr =>
    let t12 := tr ++ [Event.reload_model output_dir]
    match w.reloadOk with
    | .error e => (t12, .error e)
    | .ok _ =>
    match exGet example1 "instruction" with
    | none => (t12, .error (keyErr "instruction"))
    | some prompt2 =>
    let t13 := t12 ++ [Event.gen w.ftTag w.tokTag prompt2]
    match w.gen2 with
    | .error e => (t13, .error e)
    | .ok response2 =>
      (t13 ++ [Event.print_example example1, Event.print_response response2], .ok ())
  match pyTokenGuard cfg.hugging_face with
  | some tok =>
    let t11 := t10 ++ [Event.trainer_push tok]
    match w.pushOk with
    | .error e => (t11, .error e)
    | .ok _ => rest t11
  | none => rest t10

/-- Python truthiness of the token field: a missing token and an empty token
string are both falsy; any non-empty string is truthy. -/
def tokenPresent (hf : HuggingFaceConfig) : Bool :=
  match hf.token with
  | none => false
  | some s => !s.isEmpty

/-- The output directory computed at `train.py` line 17. -/
def outDir (w : World) : List String :=
  setup_output_directory w.cfg.training_arguments w.cfg.model w.cfg.dataset

/-- The evaluation example `eval_dataset[0]` (default `[]` never used on
successful runs). -/
def ex1W (w : World) : Ex := w.ds.eval_split.head?.getD []

/-- The prompt read by both probes (default `""` never used on successful
runs). -/
def prompt1W (w : World) : String := (exGet (ex1W w) "instruction").getD ""

/-- The pre-training probe's decoded text on a successful run. -/
def resp1W (w : World) : String :=
  match w.gen1 with
  | .ok r => r
  | .error _ => ""

/-- The post-training probe's decoded text on a successful run. -/
def resp2W (w : World) : String :=
  match w.gen2 with
  | .ok r => r
  | .error _ => ""

/-- The event trace of a successful run. -/
def successTrace (w : World) : List Event :=
  [.parse_arguments, .get_config w.modelName, .load_dataset w.cfg.dataset.id,
   .load_tokenizer w.cfg.model.id, .setup_device, .load_model w.cfg.model.id,
   .gen w.baseTag w.tokTag (prompt1W w), .print_example (ex1W w),
   .print_response (resp1W w), .create_peft_config, .create_sft_config (outDir w),
   .trainer_init, .trainer_train, .trainer_evaluate, .trainer_save] ++
  (match pyTokenGuard w.cfg.hugging_face with
   | some tok => [.trainer_push tok]
   | none => []) ++
  [.reload_model (outDir w), .gen w.ftTag w.tokTag (prompt1W w),
   .print_example (ex1W w), .print_response (resp2W w)]

/-- Whether every step of the run succeeds: every collaborator returns `ok`,
the configured columns exist, the evaluation split is non-empty, its first
example has an `instruction` field, and — when the publish guard is taken —
the publish call succeeds. -/
def runOk (w : World) : Bool :=
  w.parseOk.isOk && w.configOk.isOk && w.datasetOk.isOk &&
  (w.ds.column_names.contains w.cfg.dataset.instruction_column_name &&
   w.ds.column_names.contains w.cfg.dataset.response_column_name) &&
  w.tokenizerOk.isOk && w.deviceOk.isOk && w.modelOk.isOk &&
  !w.ds.eval_split.isEmpty && (exGet (ex1W w) "instruction").isSome &&
  w.gen1.isOk && w.trainOk.isOk && w.evalOk.isOk && w.saveOk.isOk &&
  (match pyTokenGuard w.cfg.hugging_face with
   | some _ => w.pushOk.isOk
   | none => true) &&
  w.reloadOk.isOk && w.gen2.isOk

/-- The error list of one oracle outcome. -/
def eOf {α : Type} (r : Except Err α) : List Err :=
  match r with
  | .error e => [e]
  | .ok _ => []

/-- Every error message a run can terminate with: each collaborator's own
error, verbatim, plus the script's own `DataError`/`IndexError`/`KeyError`.
No translation or wrapping occurs. -/
def errPool (w : World) : List Err :=
  eOf w.parseOk ++ eOf w.configOk ++ eOf w.datasetOk ++
  ["DataError: configured columns not found"] ++
  eOf w.tokenizerOk ++ eOf w.deviceOk ++ eOf w.modelOk ++
  [idxErr, keyErr "instruction"] ++
  eOf w.gen1 ++ eOf w.trainOk ++ eOf w.evalOk ++ eOf w.saveOk ++
  eOf w.pushOk ++ eOf w.reloadOk ++ eOf w.gen2

/-- Recognizes a tokenizer-load event. -/
def isLoadTok (e : Event) : Bool :=
  match e with
  | .load_tokenizer _ => true
  | _ => false

/-- Labels of the pipeline operations whose order claim C6 is about. -/
inductive OpLabel where
  | train
  | evaluate
  | save
  | push
  | reload
  | probe
deriving DecidableEq

/-- Projects an event to its pipeline-operation label, if any. -/
def labelOf (e : Event) : Option OpLabel :=
  match e with
  | .trainer_train => some .train
  | .trainer_evaluate => some .evaluate
  | .trainer_save => some .save
  | .trainer_push _ => some .push
  | .reload_model _ => some .reload
  | .gen _ _ _ => some .probe
  | _ => none

/-- The same world with the auth token removed from the configuration. -/
def noTokenWorld (w : World) : World :=
  {w with cfg := {w.cfg with hugging_face := {w.cfg.hugging_face with token := none}}}

/-- A dataset with both standard columns in its schema but empty splits. -/
def emptyDs : HFDataset := ⟨["instruction", "response"], [], []⟩

/-- A dataset with both standard columns and one example per split. -/
def oneExDs : HFDataset :=
  ⟨["instruction", "response"],
   [[("instruction", "a"), ("response", "b")]],
   [[("instruction", "c"), ("response", "d")]]⟩

/-- A small concrete configuration using the standard column names, with
publishing turned off. -/
def cfg0 : Config :=
  ⟨⟨"gpt2"⟩, ⟨"dolly", "instruction", "response"⟩, ⟨3⟩, ⟨false, none⟩⟩

/-- A world in which every collaborator succeeds, over `cfg0`/`oneExDs`. -/
def wGood : World :=
  ⟨"gpt2", cfg0, oneExDs, 7, 1, 2,
   .ok (), .ok (), .ok (), .ok (), .ok (), .ok (), .ok "before", .ok (), .ok (),
   .ok (), .ok (), .ok (), .ok "after"⟩

/-- `wGood` with publishing enabled and a non-empty token. -/
def wPush : World :=
  {wGood with cfg := {cfg0 with hugging_face := ⟨true, some "hf_tok"⟩}}

/-- `wGood` with publishing enabled but an empty token string. -/
def wEmptyTok : World :=
  {wGood with cfg := {cfg0 with hugging_face := ⟨true, some ""⟩}}

/-- `wGood` except the external trainer's `train` call fails. -/
def wErr : World := {wGood with trainOk := .error "CUDA out of memory"}

/-- `wGood` except the evaluation split is empty (schema columns intact). -/
def wEmptyEval : World := {wGood with ds := {oneExDs with eval_split := []}}

/-- A configuration whose instruction column is named `"prompt"` rather than
the literal `"instruction"`, together with a matching dataset: the failing
input for claim C1. -/
def cfgPrompt : Config :=
  ⟨⟨"gpt2"⟩, ⟨"dolly", "prompt", "response"⟩, ⟨3⟩, ⟨false, none⟩⟩

/-- The dataset matching `cfgPrompt`: columns `"prompt"`/`"response"`. -/
def promptDs : HFDataset :=
  ⟨["prompt", "response"],
   [[("prompt", "a"), ("response", "b")]],
   [[("prompt", "c"), ("response", "d")]]⟩

/-- The failing world for claim C1: every collaborator succeeds and the
configured columns exist, but the instruction column is named `"prompt"`. -/
def wBad : World :=
  {wGood with cfg := cfgPrompt, ds := promptDs}

/-- The process exit code: a Python uncaught exception exits non-zero. -/
def exitCode (w : World) : Nat :=
  match (mainRun w).2 with
  | .ok _ => 0
  | .error _ => 1

lemma digitChar_inj10 (a b : Nat) (ha : a < 10) (hb : b < 10)
    (h : Nat.digitChar a = Nat.digitChar b) : a = b := by
  interval_cases a <;> interval_cases b <;> first | rfl | exact absurd h (by decide)

lemma map_digitChar_inj : ∀ l1 l2 : List Nat, (∀ x ∈ l1, x < 10) →
    (∀ x ∈ l2, x < 10) → l1.map Nat.digitChar = l2.map Nat.digitChar → l1 = l2 := by
  intro l1
  induction l1 with
  | nil => intro l2 _ _ h; cases l2 <;> simp_all
  | cons a t ih =>
    intro l2 h1 h2 h
    cases l2 with
    | nil => simp_all
    | cons b t2 =>
      simp only [List.map_cons, List.cons.injEq] at h
      have hab := digitChar_inj10 a b (h1 a (by simp)) (h2 b (by simp)) h.1
      subst hab
      have ht := ih t2 (fun x hx => h1 x (by simp [hx]))
        (fun x hx => h2 x (by simp [hx])) h.2
      simp [ht]

lemma natStr_inj (m n : Nat) (h : natStr m = natStr n) : m = n := by
  unfold natStr at h
  have hd : ((Nat.digits 10 m).map Nat.digitChar).reverse =
      ((Nat.digits 10 n).map Nat.digitChar).reverse := congrArg String.data h
  have hm := List.reverse_injective hd
  have hdig := map_digitChar_inj (Nat.digits 10 m) (Nat.digits 10 n)
    (fun _ hx => Nat.digits_lt_base (by norm_num) hx)
    (fun _ hx => Nat.digits_lt_base (by norm_num) hx) hm
  calc m = Nat.ofDigits 10 (Nat.digits 10 m) := (Nat.ofDigits_digits 10 m).symm
    _ = Nat.ofDigits 10 (Nat.digits 10 n) := by rw [hdig]
    _ = n := Nat.ofDigits_digits 10 n

lemma guard_some_flag {hf : HuggingFaceConfig} {tok : String}
    (h : pyTokenGuard hf = some tok) :
    (hf.push_to_hub && tokenPresent hf) = true := by
  unfold pyTokenGuard at h
  rcases htk : hf.token with - | s <;> simp only [htk] at h
  · exact absurd h (by simp)
  · split at h
    · rename_i hcond
      simp only [tokenPresent, htk]
      exact hcond
    · simp at h

lemma guard_some_of_flag {hf : HuggingFaceConfig}
    (h : (hf.push_to_hub && tokenPresent hf) = true) :
    ∃ tok, pyTokenGuard hf = some tok := by
  unfold tokenPresent at h
  rcases htk : hf.token with - | s <;> simp only [htk] at h
  · simp at h
  · refine ⟨s, ?_⟩
    unfold pyTokenGuard
    simp only [htk]
    rw [if_pos h]

lemma guard_none_flag {hf : HuggingFaceConfig} (h : pyTokenGuard hf = none) :
    (hf.push_to_hub && tokenPresent hf) = false := by
  by_contra hne
  obtain ⟨tok, htok⟩ := guard_some_of_flag (by
    rcases hb : (hf.push_to_hub && tokenPresent hf) with - | - <;> simp_all)
  rw [h] at htok
  simp at htok

/-- C4: `setup_output_directory` is a deterministic and injective function of
(model id, dataset id, training arguments): two configurations are mapped to
the same output path exactly when their model ids, dataset ids and training
arguments agree — equal triples yield equal paths, distinct triples yield
distinct paths. -/
theorem setup_output_directory_det_inj (m1 m2 : ModelConfig)
    (d1 d2 : DatasetConfig) (t1 t2 : TrainingArguments) :
    setup_output_directory t1 m1 d1 = setup_output_directory t2 m2 d2 ↔
      (m1.id = m2.id ∧ d1.id = d2.id ∧ t1 = t2) := by
  unfold setup_output_directory
  constructor
  · intro h
    simp only [List.cons.injEq, and_true] at h
    obtain ⟨h1, h2, h3⟩ := h
    refine ⟨h1, h2, ?_⟩
    have hdata := congrArg String.data h3
    simp only [String.data_append] at hdata
    have hnat : natStr t1.epochs = natStr t2.epochs :=
      String.ext (List.append_cancel_left hdata)
    cases t1; cases t2
    simpa using natStr_inj _ _ hnat
  · rintro ⟨h1, h2, rfl⟩
    simp [h1, h2]

/-- C5 counterexample: a dataset whose schema has both configured columns but
whose source splits are empty.  `prepare_datasets` succeeds and returns empty
train and eval sequences, refuting the claim that both returned sequences are
non-empty whenever the configured columns exist. -/
theorem prepare_datasets_nonempty_refuted :
    ((emptyDs.column_names.contains "instruction" &&
      emptyDs.column_names.contains "response") = true) ∧
    prepare_datasets emptyDs "instruction" "response" = .ok ([], []) :=
  ⟨rfl, rfl⟩

/-- C5 (amended): for every dataset in which both configured columns exist,
`prepare_datasets` succeeds and returns train and eval sequences whose
combined length equals the total number of examples in the source dataset;
each returned sequence is non-empty whenever the corresponding source split
is non-empty. -/
theorem prepare_datasets_sizes (ds : HFDataset) (instr resp : String)
    (h : (ds.column_names.contains instr && ds.column_names.contains resp) = true) :
    ∃ ts es, prepare_datasets ds instr resp = .ok (ts, es) ∧
      ts.length + es.length = ds.size ∧
      (ds.train_split ≠ [] → ts ≠ []) ∧ (ds.eval_split ≠ [] → es ≠ []) := by
  refine ⟨ds.train_split, ds.eval_split, ?_, rfl, fun hne => hne, fun hne => hne⟩
  unfold prepare_datasets
  rw [if_pos h]

lemma prepare_ok {ds : HFDataset} {a b : String} {ts es : List Ex}
    (h : prepare_datasets ds a b = .ok (ts, es)) :
    ts = ds.train_split ∧ es = ds.eval_split := by
  unfold prepare_datasets at h
  split at h
  · simp only [Except.ok.injEq, Prod.mk.injEq] at h
    exact ⟨h.1.symm, h.2.symm⟩
  · simp at h

lemma gen_mem_trace (w : World) (m t : Nat) (p : String)
    (h : Event.gen m t p ∈ (mainRun w).1) :
    t = w.tokTag ∧ ∃ ex, w.ds.eval_split.head? = some ex ∧
      exGet ex "instruction" = some p := by
  unfold mainRun at h
  rcases h1 : w.parseOk with e1 | u1 <;> simp only [h1] at h
  · simp at h
  rcases h2 : w.configOk with e2 | u2 <;> simp only [h2] at h
  · simp at h
  rcases h3 : w.datasetOk with e3 | u3 <;> simp only [h3] at h
  · simp at h
  rcases h4 : prepare_datasets w.ds w.cfg.dataset.instruction_column_name
      w.cfg.dataset.response_column_name with e4 | ⟨tds, eds⟩ <;> simp only [h4] at h
  · simp at h
  obtain ⟨-, hes⟩ := prepare_ok h4
  rcases h5 : w.tokenizerOk with e5 | u5 <;> simp only [h5] at h
  · simp at h
  rcases h6 : w.deviceOk with e6 | u6 <;> simp only [h6] at h
  · simp at h
  rcases h7 : w.modelOk with e7 | u7 <;> simp only [h7] at h
  · simp at h
  rcases h8 : eds.head? with - | ex1 <;> simp only [h8] at h
  · simp at h
  rcases h9 : exGet ex1 "instruction" with - | pr1 <;> simp only [h9] at h
  · simp at h
  have hgoal2 : ∃ ex, w.ds.eval_split.head? = some ex ∧
      exGet ex "instruction" = some pr1 := ⟨ex1, by rw [← hes]; exact h8, h9⟩
  rcases h10 : w.gen1 with e10 | r1 <;> simp only [h10] at h
  · simp at h
    exact ⟨h.2.1, h.2.2.symm ▸ hgoal2⟩
  rcases h11 : w.trainOk with e11 | u11 <;> simp only [h11] at h
  · simp at h
    exact ⟨h.2.1, h.2.2.symm ▸ hgoal2⟩
  rcases h12 : w.evalOk with e12 | u12 <;> simp only [h12] at h
  · simp at h
    exact ⟨h.2.1, h.2.2.symm ▸ hgoal2⟩
  rcases h13 : w.saveOk with e13 | u13 <;> simp only [h13] at h
  · simp at h
    exact ⟨h.2.1, h.2.2.symm ▸ hgoal2⟩
  rcases h14 : pyTokenGuard w.cfg.hugging_face with - | tok <;> simp only [h14] at h
  · rcases h16 : w.reloadOk with e16 | u16 <;> simp only [h16] at h
    · simp at h
      exact ⟨h.2.1, h.2.2.symm ▸ hgoal2⟩
    rcases h17 : w.gen2 with e17 | r2 <;> simp only [h17] at h
    · simp at h
      rcases h with ⟨-, ht, hp⟩ | ⟨-, ht, hp⟩ <;> exact ⟨ht, hp.symm ▸ hgoal2⟩
    simp at h
    rcases h with ⟨-, ht, hp⟩ | ⟨-, ht, hp⟩ <;> exact ⟨ht, hp.symm ▸ hgoal2⟩
  · rcases h15 : w.pushOk with e15 | u15 <;> simp only [h15] at h
    · simp at h
      exact ⟨h.2.1, h.2.2.symm ▸ hgoal2⟩
    rcases h16 : w.reloadOk with e16 | u16 <;> simp only [h16] at h
    · simp at h
      exact ⟨h.2.1, h.2.2.symm ▸ hgoal2⟩
    rcases h17 : w.gen2 with e17 | r2 <;> simp only [h17] at h
    · simp at h
      rcases h with ⟨-, ht, hp⟩ | ⟨-, ht, hp⟩ <;> exact ⟨ht, hp.symm ▸ hgoal2⟩
    simp at h
    rcases h with ⟨-, ht, hp⟩ | ⟨-, ht, hp⟩ <;> exact ⟨ht, hp.symm ▸ hgoal2⟩

lemma prepare_cols {ds : HFDataset} {a b : String} {pr : List Ex × List Ex}
    (h : prepare_datasets ds a b = .ok pr) :
    (ds.column_names.contains a && ds.column_names.contains b) = true := by
  unfold prepare_datasets at h
  split at h
  · assumption
  · simp at h

lemma prepare_ok_of_cols {ds : HFDataset} {a b : String}
    (h : (ds.column_names.contains a && ds.column_names.contains b) = true) :
    prepare_datasets ds a b = .ok (ds.train_split, ds.eval_split) := by
  unfold prepare_datasets
  rw [if_pos h]

lemma ok_char (w : World) (h : (mainRun w).2 = .ok ()) :
    runOk w = true ∧ (mainRun w).1 = successTrace w := by
  have hmain : mainRun w = ((mainRun w).1, (mainRun w).2) := rfl
  unfold mainRun at h ⊢
  rcases h1 : w.parseOk with e1 | u1 <;> simp only [h1] at h ⊢
  · simp at h
  rcases h2 : w.configOk with e2 | u2 <;> simp only [h2] at h ⊢
  · simp at h
  rcases h3 : w.datasetOk with e3 | u3 <;> simp only [h3] at h ⊢
  · simp at h
  rcases h4 : prepare_datasets w.ds w.cfg.dataset.instruction_column_name
      w.cfg.dataset.response_column_name with e4 | ⟨tds, eds⟩ <;> simp only [h4] at h ⊢
  · simp at h
  obtain ⟨-, hes⟩ := prepare_ok h4
  have hcols := prepare_cols h4
  rcases h5 : w.tokenizerOk with e5 | u5 <;> simp only [h5] at h ⊢
  · simp at h
  rcases h6 : w.deviceOk with e6 | u6 <;> simp only [h6] at h ⊢
  · simp at h
  rcases h7 : w.modelOk with e7 | u7 <;> simp only [h7] at h ⊢
  · simp at h
  rcases h8 : eds.head? with - | ex1 <;> simp only [h8] at h ⊢
  · simp at h
  rcases h9 : exGet ex1 "instruction" with - | pr1 <;> simp only [h9] at h ⊢
  · simp at h
  have hne : w.ds.eval_split.isEmpty = false := by
    rw [← hes]
    cases eds
    · simp at h8
    · simp
  have hex1 : ex1W w = ex1 := by
    unfold ex1W
    rw [← hes, h8]
    rfl
  have hpr1 : prompt1W w = pr1 := by
    unfold prompt1W
    rw [hex1, h9]
    rfl
  rcases h10 : w.gen1 with e10 | r1 <;> simp only [h10] at h ⊢
  · simp at h
  rcases h11 : w.trainOk with e11 | u11 <;> simp only [h11] at h ⊢
  · simp at h
  rcases h12 : w.evalOk with e12 | u12 <;> simp only [h12] at h ⊢
  · simp at h
  rcases h13 : w.saveOk with e13 | u13 <;> simp only [h13] at h ⊢
  · simp at h
  rcases h14 : pyTokenGuard w.cfg.hugging_face with - | tokg <;> simp only [h14] at h ⊢
  · rcases h16 : w.reloadOk with e16 | u16 <;> simp only [h16] at h ⊢
    · simp at h
    rcases h17 : w.gen2 with e17 | r2 <;> simp only [h17] at h ⊢
    · simp at h
    constructor
    · obtain ⟨hc1, hc2⟩ : _ ∧ _ := by simpa using hcols
      simp [runOk, h1, h2, h3, h5, h6, h7, h10, h11, h12, h13, h14, h16, h17,
        hne, hex1, h9, hc1, hc2, Except.isOk, Except.toBool]
    · simp [successTrace, h14, hex1, hpr1, resp1W, resp2W, h10, h17, outDir]
  · rcases h15 : w.pushOk with e15 | u15 <;> simp only [h15] at h ⊢
    · simp at h
    rcases h16 : w.reloadOk with e16 | u16 <;> simp only [h16] at h ⊢
    · simp at h
    rcases h17 : w.gen2 with e17 | r2 <;> simp only [h17] at h ⊢
    · simp at h
    constructor
    · obtain ⟨hc1, hc2⟩ : _ ∧ _ := by simpa using hcols
      simp [runOk, h1, h2, h3, h5, h6, h7, h10, h11, h12, h13, h14, h15, h16, h17,
        hne, hex1, h9, hc1, hc2, Except.isOk, Except.toBool]
    · simp [successTrace, h14, hex1, hpr1, resp1W, resp2W, h10, h17, outDir]

lemma ok_of_runOk (w : World) (h : runOk w = true) : (mainRun w).2 = .ok () := by
  unfold runOk at h
  simp only [Bool.and_eq_true] at h
  obtain ⟨⟨⟨⟨⟨⟨⟨⟨⟨⟨⟨⟨⟨⟨⟨hp, hc⟩, hd⟩, ⟨hc1, hc2⟩⟩, htk⟩, hdev⟩, hmo⟩, hne⟩,
    hsm⟩, hg1⟩, htr⟩, hev⟩, hsv⟩, hpg⟩, hrl⟩, hg2⟩ := h
  rcases h1 : w.parseOk with e1 | u1
  · rw [h1] at hp; simp [Except.isOk, Except.toBool] at hp
  rcases h2 : w.configOk with e2 | u2
  · rw [h2] at hc; simp [Except.isOk, Except.toBool] at hc
  rcases h3 : w.datasetOk with e3 | u3
  · rw [h3] at hd; simp [Except.isOk, Except.toBool] at hd
  have hprep := @prepare_ok_of_cols w.ds w.cfg.dataset.instruction_column_name
    w.cfg.dataset.response_column_name (by rw [hc1, hc2]; rfl)
  rcases h5 : w.tokenizerOk with e5 | u5
  · rw [h5] at htk; simp [Except.isOk, Except.toBool] at htk
  rcases h6 : w.deviceOk with e6 | u6
  · rw [h6] at hdev; simp [Except.isOk, Except.toBool] at hdev
  rcases h7 : w.modelOk with e7 | u7
  · rw [h7] at hmo; simp [Except.isOk, Except.toBool] at hmo
  rcases he : w.ds.eval_split with - | ⟨x, xs⟩
  · rw [he] at hne; simp at hne
  have hx1 : ex1W w = x := by simp [ex1W, he]
  rw [hx1] at hsm
  rcases hx : exGet x "instruction" with - | pv
  · rw [hx] at hsm; simp at hsm
  rcases h10 : w.gen1 with e10 | r1
  · rw [h10] at hg1; simp [Except.isOk, Except.toBool] at hg1
  rcases h11 : w.trainOk with e11 | u11
  · rw [h11] at htr; simp [Except.isOk, Except.toBool] at htr
  rcases h12 : w.evalOk with e12 | u12
  · rw [h12] at hev; simp [Except.isOk, Except.toBool] at hev
  rcases h13 : w.saveOk with e13 | u13
  · rw [h13] at hsv; simp [Except.isOk, Except.toBool] at hsv
  rcases h16 : w.reloadOk with e16 | u16
  · rw [h16] at hrl; simp [Except.isOk, Except.toBool] at hrl
  rcases h17 : w.gen2 with e17 | r2
  · rw [h17] at hg2; simp [Except.isOk, Except.toBool] at hg2
  rcases hg : pyTokenGuard w.cfg.hugging_face with - | tokg
  · unfold mainRun
    simp [h1, h2, h3, hprep, h5, h6, h7, he, hx, h10, h11, h12, h13, hg, h16, h17]
  · rw [hg] at hpg
    rcases h15 : w.pushOk with e15 | u15
    · rw [h15] at hpg; simp [Except.isOk, Except.toBool] at hpg
    unfold mainRun
    simp [h1, h2, h3, hprep, h5, h6, h7, he, hx, h10, h11, h12, h13, hg, h15,
      h16, h17]

lemma traceIsTake (w : World) : ∃ n, (mainRun w).1 = (successTrace w).take n := by
  unfold mainRun
  rcases h1 : w.parseOk with e1 | u1 <;> simp only [h1]
  · exact ⟨1, by simp [successTrace]⟩
  rcases h2 : w.configOk with e2 | u2 <;> simp only [h2]
  · exact ⟨2, by simp [successTrace]⟩
  rcases h3 : w.datasetOk with e3 | u3 <;> simp only [h3]
  · exact ⟨3, by simp [successTrace]⟩
  rcases h4 : prepare_datasets w.ds w.cfg.dataset.instruction_column_name
      w.cfg.dataset.response_column_name with e4 | ⟨tds, eds⟩ <;> simp only [h4]
  · exact ⟨3, by simp [successTrace]⟩
  obtain ⟨-, hes⟩ := prepare_ok h4
  rcases h5 : w.tokenizerOk with e5 | u5 <;> simp only [h5]
  · exact ⟨4, by simp [successTrace]⟩
  rcases h6 : w.deviceOk with e6 | u6 <;> simp only [h6]
  · exact ⟨5, by simp [successTrace]⟩
  rcases h7 : w.modelOk with e7 | u7 <;> simp only [h7]
  · exact ⟨6, by simp [successTrace]⟩
  rcases h8 : eds.head? with - | ex1 <;> simp only [h8]
  · exact ⟨6, by simp [successTrace]⟩
  rcases h9 : exGet ex1 "instruction" with - | pr1 <;> simp only [h9]
  · exact ⟨6, by simp [successTrace]⟩
  have hex1 : ex1W w = ex1 := by
    unfold ex1W
    rw [← hes, h8]
    rfl
  have hpr1 : prompt1W w = pr1 := by
    unfold prompt1W
    rw [hex1, h9]
    rfl
  rcases h10 : w.gen1 with e10 | r1 <;> simp only [h10]
  · exact ⟨7, by simp [successTrace, hpr1]⟩
  have hr1 : resp1W w = r1 := by
    unfold resp1W
    rw [h10]
  rcases h11 : w.trainOk with e11 | u11 <;> simp only [h11]
  · exact ⟨13, by simp [successTrace, hpr1, hex1, hr1, outDir]⟩
  rcases h12 : w.evalOk with e12 | u12 <;> simp only [h12]
  · exact ⟨14, by simp [successTrace, hpr1, hex1, hr1, outDir]⟩
  rcases h13 : w.saveOk with e13 | u13 <;> simp only [h13]
  · exact ⟨15, by simp [successTrace, hpr1, hex1, hr1, outDir]⟩
  rcases h14 : pyTokenGuard w.cfg.hugging_face with - | tokg <;> simp only [h14]
  · rcases h16 : w.reloadOk with e16 | u16 <;> simp only [h16]
    · exact ⟨16, by simp [successTrace, h14, hpr1, hex1, hr1, outDir]⟩
    rcases h17 : w.gen2 with e17 | r2 <;> simp only [h17]
    · exact ⟨17, by simp [successTrace, h14, hpr1, hex1, hr1, outDir]⟩
    have hr2 : resp2W w = r2 := by
      unfold resp2W
      rw [h17]
    exact ⟨19, by simp [successTrace, h14, hpr1, hex1, hr1, hr2, outDir]⟩
  · rcases h15 : w.pushOk with e15 | u15 <;> simp only [h15]
    · exact ⟨16, by simp [successTrace, h14, hpr1, hex1, hr1, outDir]⟩
    rcases h16 : w.reloadOk with e16 | u16 <;> simp only [h16]
    · exact ⟨17, by simp [successTrace, h14, hpr1, hex1, hr1, outDir]⟩
    rcases h17 : w.gen2 with e17 | r2 <;> simp only [h17]
    · exact ⟨18, by simp [successTrace, h14, hpr1, hex1, hr1, outDir]⟩
    have hr2 : resp2W w = r2 := by
      unfold resp2W
      rw [h17]
    exact ⟨20, by simp [successTrace, h14, hpr1, hex1, hr1, hr2, outDir]⟩

lemma loadTok_facts (w : World) :
    ((mainRun w).1.countP isLoadTok) ≤ 1 ∧
    (∀ i, Event.load_tokenizer i ∈ (mainRun w).1 → i = w.cfg.model.id) := by
  obtain ⟨n, hn⟩ := traceIsTake w
  constructor
  · rw [hn]
    refine le_trans ((List.take_sublist n _).countP_le isLoadTok) ?_
    unfold successTrace
    rcases pyTokenGuard w.cfg.hugging_face with - | tok <;>
      simp [isLoadTok, List.countP_cons, List.countP_append]
  · intro i hi
    rw [hn] at hi
    have hmem : Event.load_tokenizer i ∈ successTrace w :=
      (List.take_sublist n _).subset hi
    unfold successTrace at hmem
    rcases hg : pyTokenGuard w.cfg.hugging_face with - | tok <;>
      rw [hg] at hmem <;> simp at hmem <;> exact hmem

lemma push_mem_trace (w : World) (tok : String)
    (h : Event.trainer_push tok ∈ (mainRun w).1) :
    pyTokenGuard w.cfg.hugging_face = some tok := by
  unfold mainRun at h
  rcases h1 : w.parseOk with e1 | u1 <;> simp only [h1] at h
  · simp at h
  rcases h2 : w.configOk with e2 | u2 <;> simp only [h2] at h
  · simp at h
  rcases h3 : w.datasetOk with e3 | u3 <;> simp only [h3] at h
  · simp at h
  rcases h4 : prepare_datasets w.ds w.cfg.dataset.instruction_column_name
      w.cfg.dataset.response_column_name with e4 | ⟨tds, eds⟩ <;> simp only [h4] at h
  · simp at h
  rcases h5 : w.tokenizerOk with e5 | u5 <;> simp only [h5] at h
  · simp at h
  rcases h6 : w.deviceOk with e6 | u6 <;> simp only [h6] at h
  · simp at h
  rcases h7 : w.modelOk with e7 | u7 <;> simp only [h7] at h
  · simp at h
  rcases h8 : eds.head? with - | ex1 <;> simp only [h8] at h
  · simp at h
  rcases h9 : exGet ex1 "instruction" with - | pr1 <;> simp only [h9] at h
  · simp at h
  rcases h10 : w.gen1 with e10 | r1 <;> simp only [h10] at h
  · simp at h
  rcases h11 : w.trainOk with e11 | u11 <;> simp only [h11] at h
  · simp at h
  rcases h12 : w.evalOk with e12 | u12 <;> simp only [h12] at h
  · simp at h
  rcases h13 : w.saveOk with e13 | u13 <;> simp only [h13] at h
  · simp at h
  rcases h14 : pyTokenGuard w.cfg.hugging_face with - | tokg <;> simp only [h14] at h
  · rcases h16 : w.reloadOk with e16 | u16 <;> simp only [h16] at h
    · simp at h
    rcases h17 : w.gen2 with e17 | r2 <;> simp only [h17] at h
    · simp at h
    simp at h
  · rcases h15 : w.pushOk with e15 | u15 <;> simp only [h15] at h
    · simp at h
      rw [h]
    rcases h16 : w.reloadOk with e16 | u16 <;> simp only [h16] at h
    · simp at h
      rw [h]
    rcases h17 : w.gen2 with e17 | r2 <;> simp only [h17] at h
    · simp at h
      rw [h]
    simp at h
    rw [h]

lemma error_mem (w : World) (e : Err) (h : (mainRun w).2 = .error e) :
    e ∈ errPool w := by
  unfold mainRun at h
  rcases h1 : w.parseOk with e1 | u1 <;> simp only [h1] at h
  · simp at h
    simp [errPool, eOf, h1, h]
  rcases h2 : w.configOk with e2 | u2 <;> simp only [h2] at h
  · simp at h
    simp [errPool, eOf, h2, h]
  rcases h3 : w.datasetOk with e3 | u3 <;> simp only [h3] at h
  · simp at h
    simp [errPool, eOf, h3, h]
  rcases h4 : prepare_datasets w.ds w.cfg.dataset.instruction_column_name
      w.cfg.dataset.response_column_name with e4 | ⟨tds, eds⟩ <;> simp only [h4] at h
  · simp at h
    have he4 : e4 = "DataError: configured columns not found" := by
      unfold prepare_datasets at h4
      split at h4 <;> simp_all
    simp [errPool, eOf, ← h, he4]
  rcases h5 : w.tokenizerOk with e5 | u5 <;> simp only [h5] at h
  · simp at h
    simp [errPool, eOf, h5, h]
  rcases h6 : w.deviceOk with e6 | u6 <;> simp only [h6] at h
  · simp at h
    simp [errPool, eOf, h6, h]
  rcases h7 : w.modelOk with e7 | u7 <;> simp only [h7] at h
  · simp at h
    simp [errPool, eOf, h7, h]
  rcases h8 : eds.head? with - | ex1 <;> simp only [h8] at h
  · simp at h
    simp [errPool, ← h]
  rcases h9 : exGet ex1 "instruction" with - | pr1 <;> simp only [h9] at h
  · simp at h
    simp [errPool, ← h]
  rcases h10 : w.gen1 with e10 | r1 <;> simp only [h10] at h
  · simp at h
    simp [errPool, eOf, h10, h]
  rcases h11 : w.trainOk with e11 | u11 <;> simp only [h11] at h
  · simp at h
    simp [errPool, eOf, h11, h]
  rcases h12 : w.evalOk with e12 | u12 <;> simp only [h12] at h
  · simp at h
    simp [errPool, eOf, h12, h]
  rcases h13 : w.saveOk with e13 | u13 <;> simp only [h13] at h
  · simp at h
    simp [errPool, eOf, h13, h]
  rcases h14 : pyTokenGuard w.cfg.hugging_face with - | tokg <;> simp only [h14] at h
  · rcases h16 : w.reloadOk with e16 | u16 <;> simp only [h16] at h
    · simp at h
      simp [errPool, eOf, h16, h]
    rcases h17 : w.gen2 with e17 | r2 <;> simp only [h17] at h
    · simp at h
      simp [errPool, eOf, h17, h]
    simp at h
  · rcases h15 : w.pushOk with e15 | u15 <;> simp only [h15] at h
    · simp at h
      simp [errPool, eOf, h15, h]
    rcases h16 : w.reloadOk with e16 | u16 <;> simp only [h16] at h
    · simp at h
      simp [errPool, eOf, h16, h]
    rcases h17 : w.gen2 with e17 | r2 <;> simp only [h17] at h
    · simp at h
      simp [errPool, eOf, h17, h]
    simp at h

/-- Witness for C5's amended theorem at a concrete one-example-per-split
dataset. -/
theorem prepare_datasets_sizes_witness :
    ∃ ts es, prepare_datasets oneExDs "instruction" "response" = .ok (ts, es) ∧
      ts.length + es.length = oneExDs.size ∧
      (oneExDs.train_split ≠ [] → ts ≠ []) ∧ (oneExDs.eval_split ≠ [] → es ≠ []) :=
  prepare_datasets_sizes oneExDs "instruction" "response" rfl

/-- C1: the generation probes do not read the configured instruction column.
At the failing input `wBad` — a configuration whose instruction-column name is
`"prompt"`, with a matching dataset — dataset preparation succeeds, yet the
run aborts with `KeyError: instruction` before any probe or training event,
because `train.py` lines 39 and 65 index `example1["instruction"]` with the
fixed literal rather than `dataset_cfg.instruction_column_name`. -/
theorem probe_fixed_field_keyerror :
    prepare_datasets wBad.ds wBad.cfg.dataset.instruction_column_name
      wBad.cfg.dataset.response_column_name =
      .ok (promptDs.train_split, promptDs.eval_split) ∧
    exGet (promptDs.eval_split.head?.getD []) "prompt" = some "c" ∧
    (mainRun wBad).1 = [.parse_arguments, .get_config "gpt2", .load_dataset "dolly",
      .load_tokenizer "gpt2", .setup_device, .load_model "gpt2"] ∧
    (mainRun wBad).2 = .error (keyErr "instruction") :=
  ⟨rfl, rfl, rfl, rfl⟩

/-- C2: the publish operation runs exactly when the push-to-hub flag is set
and the token is (truthily) present: if the flag is false or the token is
absent, no publish event ever occurs (even in failing runs), and in every
successful run the publish event occurs exactly when flag and token are both
set — skipping is not an error. -/
theorem push_iff_flag_and_token (w : World) :
    ((w.cfg.hugging_face.push_to_hub = false ∨ tokenPresent w.cfg.hugging_face = false) →
      ∀ tok, Event.trainer_push tok ∉ (mainRun w).1) ∧
    ((mainRun w).2 = .ok () →
      ((∃ tok, Event.trainer_push tok ∈ (mainRun w).1) ↔
        (w.cfg.hugging_face.push_to_hub && tokenPresent w.cfg.hugging_face) = true)) := by
  constructor
  · intro hcase tok hmem
    have hflag := guard_some_flag (push_mem_trace w tok hmem)
    rcases hcase with hc | hc <;> rw [hc] at hflag <;> simp at hflag
  · intro hok
    constructor
    · rintro ⟨tok, hmem⟩
      exact guard_some_flag (push_mem_trace w tok hmem)
    · intro hflag
      obtain ⟨-, htr⟩ := ok_char w hok
      obtain ⟨tok, hg⟩ := guard_some_of_flag hflag
      refine ⟨tok, ?_⟩
      rw [htr]
      unfold successTrace
      rw [hg]
      simp

/-- Witness for C2 at `wGood` (publish flag off, run succeeds): no publish
event occurs and the success-side equivalence holds. -/
theorem push_iff_flag_and_token_witness :
    (wGood.cfg.hugging_face.push_to_hub = false ∨ tokenPresent wGood.cfg.hugging_face = false) ∧
    (∀ tok, Event.trainer_push tok ∉ (mainRun wGood).1) ∧
    ((mainRun wGood).2 = .ok ()) ∧
    ((∃ tok, Event.trainer_push tok ∈ (mainRun wGood).1) ↔
      (wGood.cfg.hugging_face.push_to_hub && tokenPresent wGood.cfg.hugging_face) = true) :=
  ⟨Or.inl rfl, (push_iff_flag_and_token wGood).1 (Or.inl rfl), rfl,
   (push_iff_flag_and_token wGood).2 rfl⟩

/-- C3: any two generation-probe events of a run carry the same prompt, and
that prompt is the `instruction` field of the first element of the evaluation
split — the same example, bound once, serves both the pre- and post-training
probe. -/
theorem probes_same_example (w : World) (m1 t1 m2 t2 : Nat) (p1 p2 : String)
    (h1 : Event.gen m1 t1 p1 ∈ (mainRun w).1)
    (h2 : Event.gen m2 t2 p2 ∈ (mainRun w).1) :
    p1 = p2 ∧ ∃ ex, w.ds.eval_split.head? = some ex ∧
      exGet ex "instruction" = some p1 := by
  obtain ⟨-, ex, hex, hp⟩ := gen_mem_trace w m1 t1 p1 h1
  obtain ⟨-, ex', hex', hp'⟩ := gen_mem_trace w m2 t2 p2 h2
  have hx : ex = ex' := by rw [hex] at hex'; exact (Option.some.injEq _ _).mp hex'
  subst hx
  have : p1 = p2 := by rw [hp] at hp'; exact (Option.some.injEq _ _).mp hp'
  exact ⟨this, ex, hex, hp⟩

/-- Witness for C3: at `wGood` both probe events are in the trace and carry
the instruction text of the first evaluation example. -/
theorem probes_same_example_witness :
    Event.gen 1 7 "c" ∈ (mainRun wGood).1 ∧
    Event.gen 2 7 "c" ∈ (mainRun wGood).1 ∧
    ("c" = "c" ∧ ∃ ex, wGood.ds.eval_split.head? = some ex ∧
      exGet ex "instruction" = some "c") :=
  ⟨by decide, by decide,
   probes_same_example wGood 1 7 2 7 "c" "c" (by decide) (by decide)⟩

/-- C6: in every successful run the pipeline operations occur exactly once
each, in the strict order probe, train, evaluate, save, optionally publish,
then reload and the second probe. -/
theorem trainer_order (w : World) (h : (mainRun w).2 = .ok ()) :
    (mainRun w).1.filterMap labelOf =
      [.probe, .train, .evaluate, .save] ++
      (if (w.cfg.hugging_face.push_to_hub && tokenPresent w.cfg.hugging_face) = true
        then [OpLabel.push] else []) ++
      [.reload, .probe] := by
  obtain ⟨-, htr⟩ := ok_char w h
  rw [htr]
  unfold successTrace
  rcases hg : pyTokenGuard w.cfg.hugging_face with - | tokg
  · rw [if_neg (by rw [guard_none_flag hg]; simp)]
    simp [labelOf]
  · rw [if_pos (guard_some_flag hg)]
    simp [labelOf]

/-- Witness for C6 at the successful run `wGood`. -/
theorem trainer_order_witness :
    (mainRun wGood).1.filterMap labelOf =
      [.probe, .train, .evaluate, .save] ++
      (if (wGood.cfg.hugging_face.push_to_hub && tokenPresent wGood.cfg.hugging_face) = true
        then [OpLabel.push] else []) ++
      [.reload, .probe] :=
  trainer_order wGood rfl

/-- C7: no step catches, retries or translates a failure.  If every step
succeeds the run returns `ok` and the process exits zero; if the run fails,
the terminating error is verbatim one of the collaborators' own errors (or
the script's own `DataError`/`IndexError`/`KeyError`) and the process exits
non-zero. -/
theorem error_propagation (w : World) :
    (runOk w = true → (mainRun w).2 = .ok () ∧ exitCode w = 0) ∧
    (∀ e, (mainRun w).2 = .error e → e ∈ errPool w ∧ exitCode w = 1) := by
  constructor
  · intro h
    have hok := ok_of_runOk w h
    exact ⟨hok, by unfold exitCode; rw [hok]⟩
  · intro e he
    exact ⟨error_mem w e he, by unfold exitCode; rw [he]⟩

/-- Witness for C7: `wGood` succeeds and exits zero; `wErr` (training fails)
terminates with the trainer's own error message and exits non-zero. -/
theorem error_propagation_witness :
    (runOk wGood = true ∧ ((mainRun wGood).2 = .ok () ∧ exitCode wGood = 0)) ∧
    ((mainRun wErr).2 = .error "CUDA out of memory" ∧
      ("CUDA out of memory" ∈ errPool wErr ∧ exitCode wErr = 1)) :=
  ⟨⟨by decide, (error_propagation wGood).1 (by decide)⟩,
   ⟨rfl, (error_propagation wErr).2 "CUDA out of memory" rfl⟩⟩

/-- C8: token presence is decided by Python truthiness.  With the publish
flag set and the token equal to the empty string, the publish step is
silently skipped and the whole run (trace and result) is identical to the
run with the token field missing. -/
theorem empty_token_skips_publish (w : World)
    (hflag : w.cfg.hugging_face.push_to_hub = true)
    (htok : w.cfg.hugging_face.token = some "") :
    (∀ tok, Event.trainer_push tok ∉ (mainRun w).1) ∧
    mainRun w = mainRun (noTokenWorld w) := by
  have hguard : pyTokenGuard w.cfg.hugging_face = none := by
    unfold pyTokenGuard
    simp only [htok]
    have h0 : ("" : String).isEmpty = true := rfl
    rw [h0]
    simp
  constructor
  · intro tok hmem
    have := push_mem_trace w tok hmem
    rw [hguard] at this
    simp at this
  · have hguard' : pyTokenGuard ⟨w.cfg.hugging_face.push_to_hub, none⟩ = none := rfl
    unfold mainRun
    simp only [noTokenWorld, hguard, hguard']

/-- Witness for C8 at `wEmptyTok` (flag on, token `""`). -/
theorem empty_token_skips_publish_witness :
    wEmptyTok.cfg.hugging_face.push_to_hub = true ∧
    wEmptyTok.cfg.hugging_face.token = some "" ∧
    ((∀ tok, Event.trainer_push tok ∉ (mainRun wEmptyTok).1) ∧
      mainRun wEmptyTok = mainRun (noTokenWorld wEmptyTok)) :=
  ⟨rfl, rfl, empty_token_skips_publish wEmptyTok rfl rfl⟩

/-- C9: the pre-training probe indexes `eval_dataset[0]` unconditionally:
when every step up to model loading succeeds but the evaluation split is
empty, the run aborts with `IndexError` and no adapter-configuration,
training or saving event ever occurs. -/
theorem empty_eval_aborts (w : World)
    (h1 : w.parseOk = .ok ()) (h2 : w.configOk = .ok ()) (h3 : w.datasetOk = .ok ())
    (hcols : (w.ds.column_names.contains w.cfg.dataset.instruction_column_name &&
              w.ds.column_names.contains w.cfg.dataset.response_column_name) = true)
    (h5 : w.tokenizerOk = .ok ()) (h6 : w.deviceOk = .ok ()) (h7 : w.modelOk = .ok ())
    (he : w.ds.eval_split = []) :
    (mainRun w).2 = .error idxErr ∧
    Event.create_peft_config ∉ (mainRun w).1 ∧
    Event.trainer_train ∉ (mainRun w).1 ∧
    Event.trainer_save ∉ (mainRun w).1 := by
  have hprep := prepare_ok_of_cols hcols
  have hrun : mainRun w =
      ([.parse_arguments, .get_config w.modelName, .load_dataset w.cfg.dataset.id,
        .load_tokenizer w.cfg.model.id, .setup_device, .load_model w.cfg.model.id],
       .error idxErr) := by
    unfold mainRun
    simp [h1, h2, h3, hprep, h5, h6, h7, he]
  rw [hrun]
  refine ⟨rfl, ?_, ?_, ?_⟩ <;> simp

/-- Witness for C9 at `wEmptyEval`. -/
theorem empty_eval_aborts_witness :
    ((mainRun wEmptyEval).2 = .error idxErr ∧
      Event.create_peft_config ∉ (mainRun wEmptyEval).1 ∧
      Event.trainer_train ∉ (mainRun wEmptyEval).1 ∧
      Event.trainer_save ∉ (mainRun wEmptyEval).1) :=
  empty_eval_aborts wEmptyEval rfl rfl rfl rfl rfl rfl rfl rfl

/-- C10: at most one tokenizer load ever occurs, it reads the base-model
configuration, and every generation probe (pre- and post-training) uses that
same tokenizer: the post-training reload brings in model weights only. -/
theorem same_tokenizer_probes (w : World) :
    ((mainRun w).1.countP isLoadTok ≤ 1) ∧
    (∀ i, Event.load_tokenizer i ∈ (mainRun w).1 → i = w.cfg.model.id) ∧
    (∀ m1 t1 p1 m2 t2 p2, Event.gen m1 t1 p1 ∈ (mainRun w).1 →
      Event.gen m2 t2 p2 ∈ (mainRun w).1 → t1 = w.tokTag ∧ t2 = w.tokTag ∧ t1 = t2) := by
  obtain ⟨hc, hp⟩ := loadTok_facts w
  refine ⟨hc, hp, fun m1 t1 p1 m2 t2 p2 hm1 hm2 => ?_⟩
  obtain ⟨ht1, -⟩ := gen_mem_trace w m1 t1 p1 hm1
  obtain ⟨ht2, -⟩ := gen_mem_trace w m2 t2 p2 hm2
  exact ⟨ht1, ht2, by rw [ht1, ht2]⟩

/-- Witness for C10 at `wGood`: both probe events are present and share the
tokenizer tag. -/
theorem same_tokenizer_probes_witness :
    Event.gen 1 7 "c" ∈ (mainRun wGood).1 ∧
    Event.gen 2 7 "c" ∈ (mainRun wGood).1 ∧
    Event.load_tokenizer "gpt2" ∈ (mainRun wGood).1 ∧
    "gpt2" = wGood.cfg.model.id ∧
    (7 = wGood.tokTag ∧ 7 = wGood.tokTag ∧ 7 = 7) :=
  ⟨by decide, by decide, by decide,
   (same_tokenizer_probes wGood).2.1 "gpt2" (by decide),
   (same_tokenizer_probes wGood).2.2 1 7 "c" 2 7 "c" (by decide) (by decide)⟩

end TrainPy
